import Mathlib

set_option maxRecDepth 8000

/-!
Verification of the statistical estimation core of the SVMP (Submerged
Vegetation Monitoring Program) ArcGIS tools.

The Python sources (Python 2) are shallowly embedded as follows:

* Python floats are modelled as exact rationals (`ℚ`); `x / y` raising
  `ZeroDivisionError` when `y == 0` is modelled by `pyDiv`, which returns
  `Except PyErr ℚ`;
* `x ** 0.5` on floats (which raises `ValueError` on a negative operand in
  Python 2) is modelled by an abstract square-root function
  `sqrtQ : ℚ → ℚ` threaded through the definitions, guarded by the same
  domain check (`pySqrt`); no claim below depends on the numeric value of a
  square root, only on its argument;
* Python ints (site counts, transect counts) are `ℕ`, cast into `ℚ`
  exactly where Python coerces them to float;
* fallible computations return `Except PyErr _`, with a `PyErr`
  constructor per Python exception class that the modelled code can raise;
* GIS-derived constants (stratum areas and lengths obtained through arcpy
  feature queries) are out of scope and appear as plain fields of the
  embedded `Stratum` record.
-/

deriving instance DecidableEq for Except

/-- Python exception classes observable in the modelled code. -/
inductive PyErr
| zeroDiv   -- ZeroDivisionError
| typeErr   -- TypeError (e.g. sum over a list containing None)
| valueErr  -- ValueError (unknown conversion flag, negative float ** 0.5)
| nameErr   -- NameError/UnboundLocalError (no extrapolation branch taken)
| indexErr  -- IndexError (list index out of range)
deriving DecidableEq, Repr

/-- Python float division: `a / b`, raising ZeroDivisionError when `b == 0`. -/
def pyDiv (a b : ℚ) : Except PyErr ℚ :=
  if b = 0 then .error .zeroDiv else .ok (a / b)

/-- Python float `x ** 0.5`: raises ValueError on a negative operand
(Python 2 semantics), otherwise returns the square root, modelled by the
abstract function `sqrtQ`. -/
def pySqrt (sqrtQ : ℚ → ℚ) (x : ℚ) : Except PyErr ℚ :=
  if x < 0 then .error .valueErr else .ok (sqrtQ x)

/-- Evaluate an `Except`-valued computation under a `try/except
ZeroDivisionError` returning `0.0` (the pattern used throughout the
sources). -/
def tryZeroDiv (e : Except PyErr ℚ) : ℚ :=
  match e with
  | .error _ => 0
  | .ok v => v

/-! ## svmpUtils.py -/

/-- svmpUtils.sf_m, the survey-feet-to-meters multiplier
`0.304800609601219` as an exact rational. -/
def sf_m : ℚ := 304800609601219 / 1000000000000000

/-- svmpUtils.nullDep, the sentinel for null depth values. -/
def nullDep : ℚ := -9999

/-- svmpUtils.ratioEstVar: ratio estimator of variance for the eelgrass
fraction.  `numerator = Σ (l - pBarHat*L)²` over `zip(l_list, L_list)`,
`denominator = (m-1) * m * LBar²`; the division raises ZeroDivisionError
when the denominator is zero. -/
def ratioEstVar (L_list l_list : List ℚ) (pBarHat : ℚ) (m : ℕ) (LBar : ℚ) :
    Except PyErr ℚ :=
  let numerator := ((l_list.zip L_list).map (fun p => (p.1 - pBarHat * p.2) ^ 2)).sum
  pyDiv numerator (((m : ℚ) - 1) * (m : ℚ) * LBar ^ 2)

/-- svmpUtils.stdDev: sample standard deviation
`((1/(N-1)) * Σ (x - mean)²) ** 0.5`; the division raises on `N == 1` and
the mean computation on `N == 0`. -/
def stdDev (sqrtQ : ℚ → ℚ) (sample : List ℚ) : Except PyErr ℚ :=
  match pyDiv sample.sum (sample.length : ℚ) with
  | .error e => .error e
  | .ok mean =>
    let sum_sqdif := (sample.map (fun v => (v - mean) ^ 2)).sum
    match pyDiv 1 ((sample.length : ℚ) - 1) with
    | .error e => .error e
    | .ok q => pySqrt sqrtQ (q * sum_sqdif)

/-- svmpUtils.stdErr: `s / (N ** 0.5)`. -/
def stdErr (sqrtQ : ℚ → ℚ) (s : ℚ) (N : ℕ) : Except PyErr ℚ :=
  match pySqrt sqrtQ (N : ℚ) with
  | .error e => .error e
  | .ok r => pyDiv s r

/-- svmpUtils.ci95: `1.96 * SE`. -/
def ci95 (SE : ℚ) : ℚ := (196 / 100) * SE

/-! ## svmp_93.py: Site and unit conversion -/

/-- svmp_93.Site: id, Zostera marina area, its variance, and the optional
sample area `a2j` (rotational flats only).  The `conversion` constructor
argument is modelled by applying `Site.convert_units` explicitly. -/
structure Site where
  id : String
  zmArea : ℚ
  zmAreaVar : ℚ
  a2j : Option ℚ
deriving DecidableEq, Repr

/-- svmp_93.Site.convert_units: for `"sf2m"`, multiplies `zmArea` by
`sf_m²`, `zmAreaVar` by `sf_m⁴` and, when `a2j` is truthy (not None and
not 0), `a2j` by `sf_m²`; any other flag raises ValueError. -/
def Site.convert_units (s : Site) (conversion : String) : Except PyErr Site :=
  if conversion = "sf2m" then
    .ok ⟨s.id, s.zmArea * sf_m ^ 2, s.zmAreaVar * sf_m ^ 4,
      match s.a2j with
      | none => none
      | some v => if v = 0 then some v else some (v * sf_m ^ 2)⟩
  else .error .valueErr

/-- Applying the survey-feet-to-meters conversion twice in sequence. -/
def Site.convertTwice (s : Site) : Except PyErr Site :=
  (s.convert_units "sf2m").bind (fun t => t.convert_units "sf2m")

/-! ## sitestatsdb.py: per-transect vegetation fraction -/

/-- sitestatsdb.calc_transStats, fraction step: `zm_fraction =
zmlen / samplen if samplen > 0 else 0`. -/
def calc_transStats_fraction (samplen zmlen : ℚ) : Except PyErr ℚ :=
  if 0 < samplen then pyDiv zmlen samplen else .ok 0

/-- svmp_10x.Transects.calc_vegfractions, per-transect step:
`veg_len / trans_len` under `try/except ZeroDivisionError` yielding
`0.0`. -/
def calc_vegfractions_fraction (veg_len trans_len : ℚ) : ℚ :=
  tryZeroDiv (pyDiv veg_len trans_len)

/-! ## Theorems for C4, C9, C10 -/

/-- C4: `ratioEstVar(L_list, l_list, pBarHat, m, LBar)` returns
`Σ (l - pBarHat·L)² / ((m-1)·m·LBar²)` over the zipped lists; it raises
ZeroDivisionError exactly when `m ≤ 1` or `LBar = 0`, and under the
precondition `m ≥ 2 ∧ LBar ≠ 0` it never raises. -/
theorem ratioEstVar_spec (L_list l_list : List ℚ) (pBarHat LBar : ℚ) (m : ℕ)
    (_hlen : L_list.length = l_list.length) :
    (ratioEstVar L_list l_list pBarHat m LBar = .error .zeroDiv ↔ (m ≤ 1 ∨ LBar = 0)) ∧
    (2 ≤ m → LBar ≠ 0 →
      ratioEstVar L_list l_list pBarHat m LBar =
        .ok (((l_list.zip L_list).map (fun p => (p.1 - pBarHat * p.2) ^ 2)).sum /
          (((m : ℚ) - 1) * (m : ℚ) * LBar ^ 2))) := by
  have hden : (((m : ℚ) - 1) * (m : ℚ) * LBar ^ 2 = 0) ↔ (m ≤ 1 ∨ LBar = 0) := by
    constructor
    · intro h
      rcases mul_eq_zero.mp h with h | h
      · rcases mul_eq_zero.mp h with h | h
        · have hm : (m : ℚ) = 1 := by linarith
          have : m = 1 := by exact_mod_cast hm
          exact Or.inl (by omega)
        · have : m = 0 := by exact_mod_cast h
          exact Or.inl (by omega)
      · exact Or.inr ((pow_eq_zero_iff (by norm_num)).mp h)
    · intro h
      rcases h with h | h
      · have : m = 0 ∨ m = 1 := by omega
        rcases this with h' | h' <;> subst h' <;> norm_num
      · simp [h]
  constructor
  · simp only [ratioEstVar, pyDiv]
    constructor
    · intro h
      by_contra hc
      rw [if_neg (fun h0 => hc (hden.mp h0))] at h
      exact Except.noConfusion h
    · intro h
      rw [if_pos (hden.mpr h)]
  · intro hm hL
    have hne : ¬ (((m : ℚ) - 1) * (m : ℚ) * LBar ^ 2 = 0) := by
      intro h0
      rcases hden.mp h0 with h | h
      · omega
      · exact hL h
    simp only [ratioEstVar, pyDiv]
    rw [if_neg hne]

/-- C4 witness: at `L = [1, 2]`, `l = [1, 1]`, `pBarHat = 1/2`, `m = 2`,
`LBar = 3/2`, the function neither raises nor deviates from the formula. -/
theorem ratioEstVar_spec_witness :
    (ratioEstVar [1, 2] [1, 1] (1/2) 2 (3/2) = .error .zeroDiv ↔ ((2:ℕ) ≤ 1 ∨ (3/2:ℚ) = 0)) ∧
    ((2:ℕ) ≤ 2 → (3/2:ℚ) ≠ 0 →
      ratioEstVar [1, 2] [1, 1] (1/2) 2 (3/2) =
        .ok ((([1, 1].zip [1, 2] : List (ℚ × ℚ)).map
            (fun p => (p.1 - (1/2) * p.2) ^ 2)).sum /
          (((2 : ℕ) - 1 : ℚ) * ((2 : ℕ) : ℚ) * (3/2 : ℚ) ^ 2))) :=
  ratioEstVar_spec [1, 2] [1, 1] (1/2) (3/2) 2 (by decide)

/-- C9: the per-transect vegetation fraction is `veg/sample` when the
sample length is positive and `0.0` when it is zero, and it never raises
for a non-negative sample length — both in sitestatsdb.calc_transStats
(explicit `samplen > 0` guard) and in svmp_10x.calc_vegfractions
(`try/except ZeroDivisionError`). -/
theorem transect_fraction_spec (samplen zmlen : ℚ) (h : 0 ≤ samplen) :
    (0 < samplen →
      calc_transStats_fraction samplen zmlen = .ok (zmlen / samplen) ∧
      calc_vegfractions_fraction zmlen samplen = zmlen / samplen) ∧
    (samplen = 0 →
      calc_transStats_fraction samplen zmlen = .ok 0 ∧
      calc_vegfractions_fraction zmlen samplen = 0) ∧
    (∃ v, calc_transStats_fraction samplen zmlen = .ok v) := by
  refine ⟨?_, ?_, ?_⟩
  · intro hpos
    have hne : samplen ≠ 0 := ne_of_gt hpos
    constructor
    · simp [calc_transStats_fraction, pyDiv, hpos, hne]
    · simp [calc_vegfractions_fraction, tryZeroDiv, pyDiv, hne]
  · intro h0
    subst h0
    constructor
    · simp [calc_transStats_fraction, pyDiv]
    · simp [calc_vegfractions_fraction, tryZeroDiv, pyDiv]
  · by_cases hpos : 0 < samplen
    · exact ⟨zmlen / samplen, by
        simp [calc_transStats_fraction, pyDiv, hpos, ne_of_gt hpos]⟩
    · exact ⟨0, by simp [calc_transStats_fraction, hpos]⟩

/-- C9 witness: at `samplen = 0`, `zmlen = 5`, the fraction is `0.0` in
both variants and nothing is raised. -/
theorem transect_fraction_spec_witness :
    calc_transStats_fraction 0 5 = .ok 0 ∧ calc_vegfractions_fraction 5 0 = 0 :=
  (transect_fraction_spec 0 5 le_rfl).2.1 rfl

/-- A concrete site used to refute idempotence of unit conversion. -/
def c10_site : Site := ⟨"site1", 1, 1, some 1⟩

/-- C10 counterexample: converting `c10_site` twice does not equal
converting it once (`zmArea` is scaled by `sf_m⁴`, not `sf_m²`), so
`convert_units "sf2m"` is not idempotent. -/
theorem convert_units_not_idempotent_cex :
    Site.convertTwice c10_site ≠ c10_site.convert_units "sf2m" := by
  with_unfolding_all decide

/-- C10 amended: `convert_units "sf2m"` multiplies `zmArea` by `sf_m²`
(and a second application multiplies it again, giving `sf_m⁴`), so the
conversion is not idempotent: a second application changes every site
whose converted `zmArea` is nonzero — it must be applied exactly once. -/
theorem convert_units_scaling (s : Site) (h : s.zmArea ≠ 0) :
    (s.convert_units "sf2m").toOption.map Site.zmArea = some (s.zmArea * sf_m ^ 2) ∧
    (Site.convertTwice s).toOption.map Site.zmArea = some (s.zmArea * sf_m ^ 4) ∧
    Site.convertTwice s ≠ s.convert_units "sf2m" := by
  have h1 : (s.convert_units "sf2m").toOption.map Site.zmArea = some (s.zmArea * sf_m ^ 2) := by
    simp [Site.convert_units, Except.toOption]
  have h2 : (Site.convertTwice s).toOption.map Site.zmArea = some (s.zmArea * sf_m ^ 4) := by
    simp only [Site.convertTwice, Site.convert_units, if_pos rfl, Except.bind]
    simp [Except.toOption]
    ring
  refine ⟨h1, h2, ?_⟩
  intro heq
  rw [heq] at h2
  rw [h1] at h2
  have hpow : s.zmArea * sf_m ^ 2 = s.zmArea * sf_m ^ 4 := Option.some.inj h2
  have hne : sf_m ^ 2 ≠ sf_m ^ 4 := by norm_num [sf_m]
  exact hne (mul_left_cancel₀ h hpow)

/-- C10 witness: the scaling theorem applied to the concrete site
`c10_site`, whose `zmArea = 1` is nonzero. -/
theorem convert_units_scaling_witness :
    (c10_site.convert_units "sf2m").toOption.map Site.zmArea = some (c10_site.zmArea * sf_m ^ 2) ∧
    (Site.convertTwice c10_site).toOption.map Site.zmArea = some (c10_site.zmArea * sf_m ^ 4) ∧
    Site.convertTwice c10_site ≠ c10_site.convert_units "sf2m" :=
  convert_units_scaling c10_site (by norm_num [c10_site])

/-! ## svmp_93.py: strata and SampleStats -/

/-- Analysis stratum constants.  `analysis` and `extrapolation` mirror
BaseStratum; `Ni`, `A2` (FlatsStratum) and `Ni`, `LT`, `LN`
(FringeStratum) are GIS query results supplied from outside the
statistics core (FringeStratum also sets `LN = Ni * 1000`, which is not
needed by any claim). -/
structure Stratum where
  analysis : String
  extrapolation : String
  Ni : ℚ
  A2 : ℚ
  LT : ℚ
  LN : ℚ
deriving DecidableEq, Repr

/-- svmp_93.SampleStats.meanZmArea: `Σ site.zmArea / float(len(sites))`. -/
def meanZmAreaCalc (sites : List Site) : Except PyErr ℚ :=
  pyDiv (sites.map Site.zmArea).sum ((sites.length : ℚ))

/-- svmp_93.SampleStats.variance: standard deviation
`((1/(len(sites)-1)) * Σ (zmArea - mean)²) ** 0.5`, then squared.  The
`1/(len-1)` division raises ZeroDivisionError on a one-site sample. -/
def sampleVarianceCalc (sqrtQ : ℚ → ℚ) (sites : List Site) (mean : ℚ) :
    Except PyErr ℚ :=
  let sum_sqdif := (sites.map (fun s => (s.zmArea - mean) ^ 2)).sum
  match pyDiv 1 ((sites.length : ℚ) - 1) with
  | .error e => .error e
  | .ok q =>
    match pySqrt sqrtQ (q * sum_sqdif) with
    | .error e => .error e
    | .ok stddev => .ok (stddev ^ 2)

/-- Collect the `a2j` values of a sample, raising TypeError on a missing
one — the behaviour of `sum(self.a2js)` when an `a2j` is None. -/
def seqA2j : List Site → Except PyErr (List ℚ)
  | [] => .ok []
  | s :: rest =>
    match s.a2j with
    | none => .error .typeErr
    | some v =>
      match seqA2j rest with
      | .error e => .error e
      | .ok vs => .ok (v :: vs)

/-- The `a2j` values of a sample as plain rationals (defined when every
site has one; sites without an `a2j` contribute their Python `None`
as `0` — only used in statements about samples where `seqA2j`
succeeded, which forces every `a2j` to be present). -/
def a2jVals (sites : List Site) : List ℚ :=
  sites.map (fun s => s.a2j.getD 0)

/-- svmp_93.SampleStats.zm_area: the extrapolated Zostera marina area.
`none`: `Σ zm_areas`; `area`: `Σ zm_areas * A2 / Aij` (Skalski Eq. 9);
`linear`: `LT / LN * meanZmArea * Ni` (Skalski Eq. 7).  An unknown
extrapolation leaves the local `zmArea` unbound (UnboundLocalError). -/
def zmAreaCalc (st : Stratum) (zm_areas : List ℚ) (mean : ℚ)
    (Aij : Option ℚ) : Except PyErr ℚ :=
  if st.extrapolation = "none" then .ok zm_areas.sum
  else if st.extrapolation = "area" then
    match Aij with
    | some a => pyDiv (zm_areas.sum * st.A2) a
    | none => .error .nameErr
  else if st.extrapolation = "linear" then
    match pyDiv st.LT st.LN with
    | .error e => .error e
    | .ok t => .ok (t * mean * st.Ni)
  else .error .nameErr

/-- svmp_93.SampleStats.zm_area_var: the extrapolated variance.
`none`: `Σ zm_vars`; `area`: Skalski Eq. 11 with ratio `R`;
`linear`: Skalski Eq. 8. -/
def zmAreaVarCalc (st : Stratum) (zm_areas zm_vars : List ℚ) (ni : ℕ)
    (variance : ℚ) (a2jR : Option (List ℚ × ℚ × ℚ)) : Except PyErr ℚ :=
  if st.extrapolation = "none" then .ok zm_vars.sum
  else if st.extrapolation = "area" then
    match a2jR with
    | none => .error .nameErr
    | some (a2js, _, R) =>
      let numerator1 := ((zm_areas.zip a2js).map (fun p => (p.1 - p.2 * R) ^ 2)).sum
      let term1 := st.Ni ^ 2
      match pyDiv (ni : ℚ) st.Ni with
      | .error e => .error e
      | .ok q =>
        let term2 := 1 - q
        match pyDiv numerator1 ((ni : ℚ) * ((ni : ℚ) - 1)) with
        | .error e => .error e
        | .ok term3 =>
          match pyDiv (st.Ni * zm_vars.sum) (ni : ℚ) with
          | .error e => .error e
          | .ok term4 => .ok (term1 * term2 * term3 + term4)
  else if st.extrapolation = "linear" then
    match pyDiv st.LT st.LN with
    | .error e => .error e
    | .ok t =>
      let term1 := t ^ 2
      match pyDiv (ni : ℚ) st.Ni with
      | .error e => .error e
      | .ok q =>
        match pyDiv (st.Ni ^ 2 * (1 - q) * variance) (ni : ℚ) with
        | .error e => .error e
        | .ok term2 =>
          match pyDiv st.Ni (ni : ℚ) with
          | .error e => .error e
          | .ok t3 => .ok (term1 * (term2 + t3 * zm_vars.sum))
  else .error .nameErr

/-- The attributes a fully constructed svmp_93.SampleStats carries.
`a2jR` bundles `(a2js, Aij, R)`, the attributes that exist only for
area extrapolation. -/
structure SampleStatsR where
  site_ids : List String
  ni : ℕ
  zm_areas : List ℚ
  zm_vars : List ℚ
  meanZmArea : ℚ
  variance : ℚ
  a2jR : Option (List ℚ × ℚ × ℚ)
  zm_area : ℚ
  zm_area_var : ℚ
  se : ℚ
  cv : ℚ
deriving DecidableEq, Repr

/-- svmp_93.SampleStats.__init__ on an already imported list of sites:
mean, sample variance, the area-extrapolation attributes `Aij` and `R`
when applicable, then `zm_area`, `zm_area_var`, `se = zm_area_var ** 0.5`
and `cv = se / zm_area` (0.0 on ZeroDivisionError).  Each step can raise,
in the order the Python constructor runs them. -/
def SampleStats.make (sqrtQ : ℚ → ℚ) (sites : List Site) (st : Stratum) :
    Except PyErr SampleStatsR :=
  let zm_areas := sites.map Site.zmArea
  let zm_vars := sites.map Site.zmAreaVar
  let ni := sites.length
  match meanZmAreaCalc sites with
  | .error e => .error e
  | .ok mean =>
    match sampleVarianceCalc sqrtQ sites mean with
    | .error e => .error e
    | .ok svar =>
      match (if st.extrapolation = "area" then
               match seqA2j sites with
               | .error e => .error e
               | .ok a2js =>
                 match pyDiv zm_areas.sum a2js.sum with
                 | .error e => .error e
                 | .ok R => .ok (some (a2js, a2js.sum, R))
             else .ok none :
             Except PyErr (Option (List ℚ × ℚ × ℚ))) with
      | .error e => .error e
      | .ok a2jR =>
        match zmAreaCalc st zm_areas mean (a2jR.map (fun p => p.2.1)) with
        | .error e => .error e
        | .ok zmA =>
          match zmAreaVarCalc st zm_areas zm_vars ni svar a2jR with
          | .error e => .error e
          | .ok zmV =>
            match pySqrt sqrtQ zmV with
            | .error e => .error e
            | .ok se =>
              .ok ⟨sites.map Site.id, ni, zm_areas, zm_vars, mean, svar,
                   a2jR, zmA, zmV, se, tryZeroDiv (pyDiv se zmA)⟩

/-! ## Helper lemmas -/

/-- Successful Python division means the denominator was nonzero and the
result is the exact quotient. -/
theorem pyDiv_ok {a b v : ℚ} (h : pyDiv a b = .ok v) : b ≠ 0 ∧ v = a / b := by
  by_cases hb : b = 0
  · simp [pyDiv, hb] at h
  · simp [pyDiv, hb] at h
    exact ⟨hb, h.symm⟩

/-- When collecting the `a2j` values succeeds, every site had one and the
collected list is the evident projection. -/
theorem seqA2j_ok : ∀ {sites : List Site} {l : List ℚ},
    seqA2j sites = .ok l → l = a2jVals sites := by
  intro sites
  induction sites with
  | nil =>
    intro l h
    simp [seqA2j] at h
    simp [a2jVals, ← h]
  | cons s rest ih =>
    intro l h
    simp only [seqA2j] at h
    split at h
    · exact Except.noConfusion h
    · rename_i v hv
      split at h
      · exact Except.noConfusion h
      · rename_i vs hvs
        cases h
        simp [a2jVals, hv, ih hvs]

/-! ## Theorems for C1, C2, C3 -/

/-- C1: for a sample whose stratum extrapolates by area, a successfully
constructed SampleStats carries `R = Σ zmAreas / Σ a2j` (together with
`Aij = Σ a2j`) and `zm_area = Σ zmAreas * A2 / Σ a2j`. -/
theorem SampleStats_area_extrapolation (sqrtQ : ℚ → ℚ) (sites : List Site)
    (st : Stratum) (r : SampleStatsR) (hx : st.extrapolation = "area")
    (h : SampleStats.make sqrtQ sites st = .ok r) :
    r.a2jR = some (a2jVals sites, (a2jVals sites).sum,
      (sites.map Site.zmArea).sum / (a2jVals sites).sum) ∧
    r.zm_area = (sites.map Site.zmArea).sum * st.A2 / (a2jVals sites).sum := by
  simp only [SampleStats.make, zmAreaCalc, zmAreaVarCalc, hx] at h
  simp only [reduceIte, String.reduceEq] at h
  split at h
  · exact Except.noConfusion h
  · split at h
    · exact Except.noConfusion h
    · split at h
      · exact Except.noConfusion h
      · rename_i a2jR ha2
        split at ha2
        · exact Except.noConfusion ha2
        · rename_i a2js hseq
          split at ha2
          · exact Except.noConfusion ha2
          · rename_i R hR
            cases ha2
            obtain ⟨hAij, hRv⟩ := pyDiv_ok hR
            have ha2v : a2js = a2jVals sites := seqA2j_ok hseq
            simp only [Option.map] at h
            split at h
            · exact Except.noConfusion h
            · rename_i zmA hzmA
              obtain ⟨_, hzmAv⟩ := pyDiv_ok hzmA
              split at h
              · exact Except.noConfusion h
              · split at h
                · exact Except.noConfusion h
                · cases h
                  subst ha2v
                  exact ⟨by rw [hRv], by rw [hzmAv]⟩

/-- A square root standing in for `math`-less float `** 0.5` in concrete
witnesses; every radicand in the witness computations is `0`, where any
square root returns `0`. -/
def q0 : ℚ → ℚ := fun _ => 0

/-- The stratum of the C1 witness: rotational flats, `Ni = 10`,
`A2 = 1000`. -/
def c1_stratum : Stratum := ⟨"flats", "area", 10, 1000, 0, 0⟩

/-- The sample of the C1 witness: 5 sites with `zmArea = 10`,
`a2j = 20`. -/
def c1_sites : List Site :=
  [⟨"flats01", 10, 0, some 20⟩, ⟨"flats02", 10, 0, some 20⟩, ⟨"flats03", 10, 0, some 20⟩,
   ⟨"flats04", 10, 0, some 20⟩, ⟨"flats05", 10, 0, some 20⟩]

/-- The SampleStats record the C1 witness sample produces. -/
def c1_res : SampleStatsR :=
  ⟨["flats01", "flats02", "flats03", "flats04", "flats05"], 5,
   [10, 10, 10, 10, 10], [0, 0, 0, 0, 0], 10, 0,
   some ([20, 20, 20, 20, 20], 100, 1/2), 500, 0, 0, 0⟩

/-- C1 witness: `Ni = 10`, `A2 = 1000`, 5 sites with `zmArea = 10` and
`a2j = 20` give `R = 0.5` and `zm_area = 500`. -/
theorem SampleStats_area_extrapolation_witness :
    SampleStats.make q0 c1_sites c1_stratum = .ok c1_res ∧
    c1_res.a2jR = some (a2jVals c1_sites, (a2jVals c1_sites).sum,
      (c1_sites.map Site.zmArea).sum / (a2jVals c1_sites).sum) ∧
    c1_res.zm_area = (c1_sites.map Site.zmArea).sum * c1_stratum.A2 / (a2jVals c1_sites).sum ∧
    c1_res.a2jR.map (fun p => p.2.2) = some (1/2) ∧
    c1_res.zm_area = 500 := by
  have hmk : SampleStats.make q0 c1_sites c1_stratum = .ok c1_res := by
    with_unfolding_all decide
  have h := SampleStats_area_extrapolation q0 c1_sites c1_stratum c1_res rfl hmk
  exact ⟨hmk, h.1, h.2, by with_unfolding_all decide, by with_unfolding_all decide⟩

/-- C2: for a sample whose stratum extrapolates linearly, a successfully
constructed SampleStats carries the arithmetic mean of the site areas and
`zm_area = LT / LN * meanZmArea * Ni`. -/
theorem SampleStats_linear_extrapolation (sqrtQ : ℚ → ℚ) (sites : List Site)
    (st : Stratum) (r : SampleStatsR) (hx : st.extrapolation = "linear")
    (h : SampleStats.make sqrtQ sites st = .ok r) :
    r.meanZmArea = (sites.map Site.zmArea).sum / (sites.length : ℚ) ∧
    r.zm_area = st.LT / st.LN * r.meanZmArea * st.Ni := by
  simp only [SampleStats.make, zmAreaCalc, zmAreaVarCalc, hx] at h
  simp only [reduceIte, String.reduceEq] at h
  split at h
  · exact Except.noConfusion h
  · rename_i mean hmean
    obtain ⟨hlen, hmeanv⟩ := pyDiv_ok hmean
    split at h
    · exact Except.noConfusion h
    · split at h
      · exact Except.noConfusion h
      · rename_i t ht
        split at ht
        · exact Except.noConfusion ht
        · rename_i t0 ht0
          obtain ⟨hLN, htv⟩ := pyDiv_ok ht0
          cases ht
          split at h
          · exact Except.noConfusion h
          · split at h
            · exact Except.noConfusion h
            · cases h
              exact ⟨hmeanv, by rw [htv]⟩

/-- The stratum of the C2 witness: fringe, `Ni = 3`, `LT = 5000`,
`LN = 3000`. -/
def c2_stratum : Stratum := ⟨"fringe", "linear", 3, 0, 5000, 3000⟩

/-- The sample of the C2 witness: 3 sites with mean `zmArea = 200`. -/
def c2_sites : List Site :=
  [⟨"fringe01", 100, 0, none⟩, ⟨"fringe02", 200, 0, none⟩, ⟨"fringe03", 300, 0, none⟩]

/-- The SampleStats record the C2 witness sample produces. -/
def c2_res : SampleStatsR :=
  ⟨["fringe01", "fringe02", "fringe03"], 3, [100, 200, 300], [0, 0, 0],
   200, 0, none, 1000, 0, 0, 0⟩

/-- C2 witness: `LT = 5000`, `LN = 3000`, `Ni = 3` and mean site area
`200` give `zm_area = (5000/3000) * 200 * 3 = 1000`. -/
theorem SampleStats_linear_extrapolation_witness :
    SampleStats.make q0 c2_sites c2_stratum = .ok c2_res ∧
    c2_res.meanZmArea = (c2_sites.map Site.zmArea).sum / (c2_sites.length : ℚ) ∧
    c2_res.zm_area = c2_stratum.LT / c2_stratum.LN * c2_res.meanZmArea * c2_stratum.Ni ∧
    c2_res.meanZmArea = 200 ∧ c2_res.zm_area = 1000 := by
  have hmk : SampleStats.make q0 c2_sites c2_stratum = .ok c2_res := by
    with_unfolding_all decide
  have h := SampleStats_linear_extrapolation q0 c2_sites c2_stratum c2_res rfl hmk
  exact ⟨hmk, h.1, h.2, by with_unfolding_all decide, by with_unfolding_all decide⟩

/-- The stratum of the C3 sample: core, no extrapolation. -/
def c3_stratum : Stratum := ⟨"core", "none", 0, 0, 0, 0⟩

/-- The two-site sample of the C3 witness. -/
def c3_sites : List Site := [⟨"core001", 7, 3, none⟩, ⟨"core002", 5, 2, none⟩]

/-- The SampleStats record the C3 witness sample produces. -/
def c3_res : SampleStatsR :=
  ⟨["core001", "core002"], 2, [7, 5], [3, 2], 6, 0, none, 12, 5, 0, 0⟩

/-- C3 counterexample: constructing SampleStats on a sample with exactly
one site raises ZeroDivisionError (the sample-variance step divides by
`len(sites) - 1 = 0` before any extrapolation code runs), so the one-site
identity case never returns. -/
theorem SampleStats_one_site_cex :
    SampleStats.make q0 [⟨"core001", 7, 3, none⟩] c3_stratum = .error .zeroDiv := by
  with_unfolding_all decide

/-- C3 amended: for extrapolation `"none"`, every successfully
constructed SampleStats has `zm_area = Σ site areas` and
`zm_area_var = Σ site variances`; construction itself fails with
ZeroDivisionError on any one-site sample (its sample-variance divides by
zero), so the one-site identity case raises instead of returning. -/
theorem SampleStats_none_extrapolation (sqrtQ : ℚ → ℚ) (sites : List Site)
    (st : Stratum) (r : SampleStatsR) (hx : st.extrapolation = "none")
    (h : SampleStats.make sqrtQ sites st = .ok r) :
    (r.zm_area = (sites.map Site.zmArea).sum ∧
     r.zm_area_var = (sites.map Site.zmAreaVar).sum) ∧
    (∀ (s : Site) (st' : Stratum),
      SampleStats.make sqrtQ [s] st' = .error .zeroDiv) := by
  constructor
  · simp only [SampleStats.make, zmAreaCalc, zmAreaVarCalc, hx] at h
    simp only [reduceIte, String.reduceEq] at h
    split at h
    · exact Except.noConfusion h
    · split at h
      · exact Except.noConfusion h
      · split at h
        · exact Except.noConfusion h
        · cases h
          exact ⟨rfl, rfl⟩
  · intro s st'
    simp [SampleStats.make, meanZmAreaCalc, sampleVarianceCalc, pyDiv]

/-- C3 witness: a two-site core sample with areas `7, 5` and variances
`3, 2` is constructed successfully and returns the sums `12` and `5`. -/
theorem SampleStats_none_extrapolation_witness :
    SampleStats.make q0 c3_sites c3_stratum = .ok c3_res ∧
    (c3_res.zm_area = (c3_sites.map Site.zmArea).sum ∧
     c3_res.zm_area_var = (c3_sites.map Site.zmAreaVar).sum) ∧
    c3_res.zm_area = 12 ∧ c3_res.zm_area_var = 5 := by
  have hmk : SampleStats.make q0 c3_sites c3_stratum = .ok c3_res := by
    with_unfolding_all decide
  have h := SampleStats_none_extrapolation q0 c3_sites c3_stratum c3_res rfl hmk
  exact ⟨hmk, h.1, by with_unfolding_all decide, by with_unfolding_all decide⟩

/-! ## svmp_93.py: ChangeStats (year-to-year change, one stratum) -/

/-- svmp_93.ChangeStats.sum_of_squares: `Σ v²`. -/
def sum_of_squares (vals : List ℚ) : ℚ := (vals.map (fun v => v ^ 2)).sum

/-- svmp_93.ChangeStats.sum_xy: `Σ x·y` over the matched pairs. -/
def sum_xy (xs ys : List ℚ) : ℚ := ((xs.zip ys).map (fun p => p.1 * p.2)).sum

/-- The `try` body of svmp_93.ChangeStats.se_slope:
`((y2sum - xysum²/x2sum) / (len(xs) - 1)) / x2sum`, with every
ZeroDivisionError caught and turned into `0.0` (raises when `x2sum == 0`
or `len(xs) == 1`). -/
def slopeVarRaw (xs : List ℚ) (x2sum y2sum xysum : ℚ) : ℚ :=
  match pyDiv (xysum ^ 2) x2sum with
  | .error _ => 0
  | .ok a =>
    match pyDiv (y2sum - a) ((xs.length : ℚ) - 1) with
    | .error _ => 0
    | .ok b => tryZeroDiv (pyDiv b x2sum)

/-- The floating-point guard of svmp_93.ChangeStats.se_slope: a slope
variance that is negative but within `0.0001` of zero is replaced by
exactly zero. -/
def clampNegEps (v : ℚ) : ℚ := if v < 0 ∧ |v| < 1/10000 then 0 else v

/-- The attributes a fully constructed svmp_93.ChangeStats carries. -/
structure ChangeStatsR where
  xs : List ℚ
  ys : List ℚ
  x2sum : ℚ
  y2sum : ℚ
  xysum : ℚ
  m : ℚ
  m_se : ℚ
  change_prop : ℚ
  area_change : ℚ
  area_change_se : ℚ
deriving DecidableEq, Repr

/-- svmp_93.ChangeStats.__init__ on the matched area series `xs = y1m
areas`, `ys = y2m areas` and the year-1 stratum totals `y1_zm_area`,
`y1_zm_area_var`: slope through the origin (`0.0` on `Σx² = 0`), its
standard error `(clamped slope variance) ** 0.5`, `change_prop = m - 1`,
`area_change = change_prop * y1.zm_area`, and the area-change standard
error.  The two `** 0.5` steps raise ValueError on a negative operand. -/
def ChangeStats.make (sqrtQ : ℚ → ℚ) (xs ys : List ℚ)
    (y1_zm_area y1_zm_area_var : ℚ) : Except PyErr ChangeStatsR :=
  let x2sum := sum_of_squares xs
  let y2sum := sum_of_squares ys
  let xysum := sum_xy xs ys
  let m := tryZeroDiv (pyDiv xysum x2sum)
  let slope_var := clampNegEps (slopeVarRaw xs x2sum y2sum xysum)
  match pySqrt sqrtQ slope_var with
  | .error e => .error e
  | .ok m_se =>
    let change_prop := m - 1
    let area_change := change_prop * y1_zm_area
    let ac_var := y1_zm_area_var * change_prop ^ 2 +
      (m_se * y1_zm_area) ^ 2 - y1_zm_area_var * m_se ^ 2
    match pySqrt sqrtQ ac_var with
    | .error e => .error e
    | .ok area_change_se =>
      .ok ⟨xs, ys, x2sum, y2sum, xysum, m, m_se, change_prop,
           area_change, area_change_se⟩

/-- Successful guarded square root means a non-negative operand and the
abstract root of it. -/
theorem pySqrt_ok {f : ℚ → ℚ} {x v : ℚ} (h : pySqrt f x = .ok v) :
    ¬ x < 0 ∧ v = f x := by
  by_cases hx : x < 0
  · simp [pySqrt, hx] at h
  · simp [pySqrt, hx] at h
    exact ⟨hx, h.symm⟩

/-- C7: a constructed ChangeStats has `m = Σxy / Σx²` (and `0.0` when
`Σx² = 0`), `change_prop = m - 1`, and its slope standard error is the
square root of the clamped slope variance
`((Σy² - (Σxy)²/Σx²) / (m-1)) / Σx²`, where a raw value that is negative
with absolute value below `1e-4` is clamped to exactly zero before the
square root. -/
theorem ChangeStats_slope_spec (sqrtQ : ℚ → ℚ) (xs ys : List ℚ)
    (y1_zm_area y1_zm_area_var : ℚ) (r : ChangeStatsR)
    (h : ChangeStats.make sqrtQ xs ys y1_zm_area y1_zm_area_var = .ok r) :
    (sum_of_squares xs ≠ 0 → r.m = sum_xy xs ys / sum_of_squares xs) ∧
    (sum_of_squares xs = 0 → r.m = 0) ∧
    r.change_prop = r.m - 1 ∧
    (2 ≤ xs.length → sum_of_squares xs ≠ 0 →
      r.m_se = sqrtQ (clampNegEps
        ((sum_of_squares ys - (sum_xy xs ys) ^ 2 / sum_of_squares xs) /
          ((xs.length : ℚ) - 1) / sum_of_squares xs))) ∧
    (∀ v : ℚ, v < 0 → |v| < 1/10000 → clampNegEps v = 0) := by
  unfold ChangeStats.make at h
  dsimp only [] at h
  split at h
  · exact Except.noConfusion h
  · rename_i m_se hse
    obtain ⟨_, hsev⟩ := pySqrt_ok hse
    split at h
    · exact Except.noConfusion h
    · cases h
      refine ⟨?_, ?_, rfl, ?_, ?_⟩
      · intro hx2
        simp [tryZeroDiv, pyDiv, hx2]
      · intro hx2
        simp [tryZeroDiv, pyDiv, hx2]
      · intro hlen hx2
        have h1 : ((xs.length : ℚ) - 1) ≠ 0 := by
          have : (2 : ℚ) ≤ (xs.length : ℚ) := by exact_mod_cast hlen
          intro h0
          linarith
        have hraw : slopeVarRaw xs (sum_of_squares xs) (sum_of_squares ys) (sum_xy xs ys) =
            (sum_of_squares ys - (sum_xy xs ys) ^ 2 / sum_of_squares xs) /
              ((xs.length : ℚ) - 1) / sum_of_squares xs := by
          simp [slopeVarRaw, pyDiv, hx2, h1, tryZeroDiv]
        rw [hsev, hraw]
      · intro v hv he
        have hc : v < 0 ∧ |v| < 1/10000 := ⟨hv, he⟩
        simp only [clampNegEps, if_pos hc]

/-- The matched series of the C7 witness. -/
def c7_xs : List ℚ := [10, 20, 30]

/-- The year-2 matched series of the C7 witness. -/
def c7_ys : List ℚ := [12, 22, 33]

/-- The ChangeStats record the C7 witness series produce (with zero
year-1 totals). -/
def c7_res : ChangeStatsR :=
  ⟨[10, 20, 30], [12, 22, 33], 1400, 1717, 1550, 31/28, 0, 3/28, 0, 0⟩

set_option maxHeartbeats 1600000 in
/-- C7 witness: for `x = [10, 20, 30]`, `y = [12, 22, 33]`,
`slope = 1550/1400` and `proportionChange = slope - 1`. -/
theorem ChangeStats_slope_spec_witness :
    ChangeStats.make q0 c7_xs c7_ys 0 0 = .ok c7_res ∧
    c7_res.m = sum_xy c7_xs c7_ys / sum_of_squares c7_xs ∧
    c7_res.change_prop = c7_res.m - 1 ∧
    c7_res.m = 1550/1400 ∧ c7_res.change_prop = 1550/1400 - 1 := by
  have hmk : ChangeStats.make q0 c7_xs c7_ys 0 0 = .ok c7_res := by
    with_unfolding_all decide
  have h := ChangeStats_slope_spec q0 c7_xs c7_ys 0 0 c7_res hmk
  refine ⟨hmk, h.1 (by with_unfolding_all decide), h.2.2.1, ?_, ?_⟩
  · with_unfolding_all decide
  · with_unfolding_all decide

/-! ## svmp_93.py: Monte Carlo confidence interval -/

/-- Python `int()` applied to a float: truncation toward zero. -/
def pyInt (q : ℚ) : ℤ := if q < 0 then -((-q).floor) else q.floor

/-- Python list indexing `l[i]`: a negative index counts from the end;
out of range raises IndexError. -/
def pyGet (l : List ℚ) (i : ℤ) : Except PyErr ℚ :=
  let j : ℤ := if i < 0 then i + l.length else i
  if h : 0 ≤ j ∧ j.toNat < l.length then .ok (l.get ⟨j.toNat, h.2⟩)
  else .error .indexErr

/-- svmp_93.conf_int: mean of the relative-change values, absolute
deviations `abs(mean - rc)`, ascending sort, `idx = int(len * pct_ci)`,
and the mean of the sorted deviations at positions `idx - 1` and
`idx`. -/
def conf_int (rel_changes : List ℚ) (pct_ci : ℚ) : Except PyErr ℚ :=
  match pyDiv rel_changes.sum (rel_changes.length : ℚ) with
  | .error e => .error e
  | .ok mean_rc =>
    let conf_intervals := rel_changes.map (fun rc => |mean_rc - rc|)
    let cis_sorted := conf_intervals.insertionSort (· ≤ ·)
    let idx_ci := pyInt ((cis_sorted.length : ℚ) * pct_ci)
    match pyGet cis_sorted (idx_ci - 1) with
    | .error e => .error e
    | .ok lo =>
      match pyGet cis_sorted idx_ci with
      | .error e => .error e
      | .ok hi => .ok ((lo + hi) / 2)

/-- In-range Python indexing with a non-negative index is `List.getD`. -/
theorem pyGet_ok {l : List ℚ} {i : ℤ} (h0 : 0 ≤ i) (h1 : i < l.length) :
    pyGet l i = .ok (l.getD i.toNat 0) := by
  have hnat : i.toNat < l.length := by omega
  have hj : ¬ i < 0 := not_lt.mpr h0
  simp only [pyGet, if_neg hj]
  rw [dif_pos ⟨h0, hnat⟩]
  rw [List.getD_eq_getElem l 0 hnat]
  rfl

/-- C5: for a non-empty list of relative changes and a fraction with
`0 < idx < len` (where `idx = int(len * pct_ci)`), `conf_int` returns the
mean of the entries at positions `idx - 1` and `idx` (0-based) of the
ascending-sorted list of absolute deviations `|x - mean|` — a
mean-centered deviation-rank interval. -/
theorem conf_int_spec (rel_changes : List ℚ) (pct_ci : ℚ)
    (hne : rel_changes ≠ [])
    (hpos : 0 < pyInt ((rel_changes.length : ℚ) * pct_ci))
    (hlt : pyInt ((rel_changes.length : ℚ) * pct_ci) < rel_changes.length) :
    conf_int rel_changes pct_ci =
      .ok ((((rel_changes.map (fun x =>
            |x - rel_changes.sum / (rel_changes.length : ℚ)|)).insertionSort (· ≤ ·)).getD
          ((pyInt ((rel_changes.length : ℚ) * pct_ci)).toNat - 1) 0 +
        ((rel_changes.map (fun x =>
            |x - rel_changes.sum / (rel_changes.length : ℚ)|)).insertionSort (· ≤ ·)).getD
          (pyInt ((rel_changes.length : ℚ) * pct_ci)).toNat 0) / 2) := by
  have hlen0 : rel_changes.length ≠ 0 := fun h => hne (List.eq_nil_of_length_eq_zero h)
  have hql : ((rel_changes.length : ℚ)) ≠ 0 := by exact_mod_cast hlen0
  have hmean : pyDiv rel_changes.sum (rel_changes.length : ℚ) =
      .ok (rel_changes.sum / (rel_changes.length : ℚ)) := by
    simp [pyDiv, hql]
  have hlen : ((rel_changes.map (fun rc =>
      |rel_changes.sum / (rel_changes.length : ℚ) - rc|)).insertionSort (· ≤ ·)).length =
      rel_changes.length := by
    rw [List.length_insertionSort, List.length_map]
  unfold conf_int
  rw [hmean]
  dsimp only []
  rw [hlen]
  rw [pyGet_ok (by omega) (by rw [hlen]; omega)]
  rw [pyGet_ok (by omega) (by rw [hlen]; omega)]
  have ht : ((pyInt ((rel_changes.length : ℚ) * pct_ci)) - 1).toNat =
      (pyInt ((rel_changes.length : ℚ) * pct_ci)).toNat - 1 := by omega
  rw [ht]
  simp only [abs_sub_comm]

/-- C5 witness: for `rel_changes = [1, 2, 3, 4]` and `pct_ci = 3/4`,
`idx = 3` and the interval is the mean of the two largest deviations,
`3/2`. -/
theorem conf_int_spec_witness :
    (conf_int [1, 2, 3, 4] (3/4) =
      .ok (((([1, 2, 3, 4].map (fun x : ℚ =>
            |x - [1, 2, 3, 4].sum / (([1, 2, 3, 4] : List ℚ).length : ℚ)|)).insertionSort (· ≤ ·)).getD
          ((pyInt ((([1, 2, 3, 4] : List ℚ).length : ℚ) * (3/4))).toNat - 1) 0 +
        (([1, 2, 3, 4].map (fun x : ℚ =>
            |x - [1, 2, 3, 4].sum / (([1, 2, 3, 4] : List ℚ).length : ℚ)|)).insertionSort (· ≤ ·)).getD
          (pyInt ((([1, 2, 3, 4] : List ℚ).length : ℚ) * (3/4))).toNat 0) / 2)) ∧
    conf_int [1, 2, 3, 4] (3/4) = .ok (3/2) := by
  refine ⟨conf_int_spec [1, 2, 3, 4] (3/4) (by decide)
    (by with_unfolding_all decide) (by with_unfolding_all decide), ?_⟩
  with_unfolding_all decide

/-! ## svmp_93.py: Monte Carlo measurement error -/

/-- The redraw loop of svmp_93.measurement_error for one site: compute
`sim = zmArea + se * z` for successive draws `z` from the stream, redrawing
while `sim < 0`; returns the accepted simulated area and the unconsumed
stream, or `none` if the stream runs out (the Python loop would keep
drawing). -/
def simSite (zmArea se : ℚ) : List ℚ → Option (ℚ × List ℚ)
  | [] => none
  | z :: rest =>
    let sim := zmArea + se * z
    if sim < 0 then simSite zmArea se rest else some (sim, rest)

/-- svmp_93.measurement_error: for every site row
`[site_id, zmArea, zmAreaVar]`, draw `z`, set
`sim_zmArea = zmArea + (zmAreaVar ** 0.5) * z`, redrawing while negative;
`site[1]` is replaced by the accepted value.  The normal draws are
supplied as an explicit stream. -/
def measurement_error (sqrtQ : ℚ → ℚ) :
    List (String × ℚ × ℚ) → List ℚ → Option (List (String × ℚ × ℚ) × List ℚ)
  | [], draws => some ([], draws)
  | (site_id, zmArea, zmAreaVar) :: rest, draws =>
    match simSite zmArea (sqrtQ zmAreaVar) draws with
    | none => none
    | some (sim, draws') =>
      match measurement_error sqrtQ rest draws' with
      | none => none
      | some (out, draws'') => some ((site_id, sim, zmAreaVar) :: out, draws'')

/-- A successful single-site redraw loop accepts the first draw `z` whose
simulated area is non-negative: every draw before `z` was rejected as
negative and the result is `zmArea + se * z ≥ 0`. -/
theorem simSite_spec (zmArea se : ℚ) (ds : List ℚ) (v : ℚ) (rest : List ℚ)
    (h : simSite zmArea se ds = some (v, rest)) :
    0 ≤ v ∧ ∃ rej z, ds = rej ++ z :: rest ∧
      (∀ w ∈ rej, zmArea + se * w < 0) ∧
      ¬ (zmArea + se * z < 0) ∧ v = zmArea + se * z := by
  induction ds generalizing v rest with
  | nil => simp [simSite] at h
  | cons z zs ih =>
    simp only [simSite] at h
    split at h
    · obtain ⟨hv, rej, z', hds, hrej, hacc, hval⟩ := ih _ _ h
      exact ⟨hv, z :: rej, z', by simp [hds], by
        intro w hw
        rcases List.mem_cons.mp hw with h' | h'
        · subst h'; assumption
        · exact hrej w h', hacc, hval⟩
    · rename_i hge
      cases h
      exact ⟨not_lt.mp hge, [], z, by simp, by simp, hge, rfl⟩

/-- What svmp_93.measurement_error computes, stated recursively over the
site rows: each site in turn consumes a run of rejected draws (each
making the simulated area negative) followed by the first accepted draw
`z`, and its output row keeps the id and variance while the area becomes
`zmArea + sqrt(zmAreaVar) * z`. -/
def MESpec (sqrtQ : ℚ → ℚ) :
    List (String × ℚ × ℚ) → List ℚ → List (String × ℚ × ℚ) → List ℚ → Prop
  | [], draws, out, rest => out = [] ∧ rest = draws
  | (site_id, zmArea, zmAreaVar) :: data, draws, out, rest =>
    ∃ rej z draws' out', draws = rej ++ z :: draws' ∧
      (∀ w ∈ rej, zmArea + sqrtQ zmAreaVar * w < 0) ∧
      ¬ (zmArea + sqrtQ zmAreaVar * z < 0) ∧
      out = (site_id, zmArea + sqrtQ zmAreaVar * z, zmAreaVar) :: out' ∧
      MESpec sqrtQ data draws' out' rest

/-- C6: when the redraw loops terminate (the function returns a result),
every output site row carries `area + sqrt(variance) * z` for the first
accepted draw `z` of its portion of the stream, no simulated area is
negative, and the structure (ids, variances, row count) is preserved. -/
theorem measurement_error_spec (sqrtQ : ℚ → ℚ) :
    ∀ (data : List (String × ℚ × ℚ)) (draws rest : List ℚ)
      (out : List (String × ℚ × ℚ)),
      (∀ s ∈ data, 0 ≤ s.2.2) →
      measurement_error sqrtQ data draws = some (out, rest) →
      MESpec sqrtQ data draws out rest ∧ out.length = data.length ∧
      ∀ t ∈ out, 0 ≤ t.2.1 := by
  intro data
  induction data with
  | nil =>
    intro draws rest out _ h
    simp only [measurement_error, Option.some.injEq, Prod.mk.injEq] at h
    refine ⟨⟨h.1.symm, h.2.symm⟩, by simp [← h.1], by simp [← h.1]⟩
  | cons s data ih =>
    obtain ⟨i, a, v⟩ := s
    intro draws rest out hvar h
    simp only [measurement_error] at h
    split at h
    · exact Option.noConfusion h
    · rename_i sim draws' hsim
      split at h
      · exact Option.noConfusion h
      · rename_i out' rest' hrec
        cases h
        obtain ⟨hsim0, rej, z, hds, hrej, hacc, hval⟩ :=
          simSite_spec a (sqrtQ v) draws sim draws' hsim
        obtain ⟨hspec, hlen, hpos⟩ :=
          ih draws' rest out' (fun t ht => hvar t (List.mem_cons_of_mem _ ht)) hrec
        subst hval
        refine ⟨⟨rej, z, draws', out', hds, hrej, hacc, rfl, hspec⟩, by simp [hlen], ?_⟩
        intro t ht
        rcases List.mem_cons.mp ht with h' | h'
        · subst h'; exact hsim0
        · exact hpos t h'

/-- A square root standing in for `25 ** 0.5 = 5` in the C6 witness. -/
def q5 : ℚ → ℚ := fun _ => 5

/-- C6 witness: one site with `area = 100`, `variance = 25` and the draw
stream `[-30, 2]`: the first draw gives `100 + 5·(-30) < 0` and is
redrawn, the second is accepted, producing area `110 ≥ 0`. -/
theorem measurement_error_spec_witness :
    measurement_error q5 [("site1", 100, 25)] [-30, 2] =
      some ([("site1", 110, 25)], []) ∧
    MESpec q5 [("site1", 100, 25)] [-30, 2] [("site1", 110, 25)] [] ∧
    (∀ t ∈ [(("site1" : String), (110 : ℚ), (25 : ℚ))], 0 ≤ t.2.1) := by
  have hmk : measurement_error q5 [("site1", 100, 25)] [-30, 2] =
      some ([("site1", 110, 25)], []) := by
    with_unfolding_all decide
  have h := measurement_error_spec q5 [("site1", 100, 25)] [-30, 2] []
    [("site1", 110, 25)] (by intro s hs; simp at hs; simp [hs]) hmk
  exact ⟨hmk, h.1, h.2.2⟩

/-! ## sitestatsdb.py and svmp_10x.py: site-level statistics -/

/-- The area statistics calc_siteStats computes for one site. -/
structure SiteStatsRow where
  estmean_zmfraction : ℚ
  mean_translen : ℚ
  estvar_zmfraction : ℚ
  est_basalcov : ℚ
  estvar_basalcov : ℚ
  se_basalcov : ℚ
  cv_basalcov : ℚ
deriving DecidableEq, Repr

/-- The area-statistics block of sitestatsdb.calc_siteStats for one site:
`estmean_zmfraction = Σzmlen / Σsamplen` (no guard), `mean_translen =
Σsamplen / n`, the ratio-estimator variance, `est_basalcov = fraction *
sample_area`, its variance, `se = variance ** 0.5` and `cv = se /
est_basalcov` (no guard).  `n`, the transect counter, always equals the
length of the per-transect lists.  The subsequent `ci95 = 1.96 * se` and
the depth statistics cannot raise. -/
def calc_siteStats_area (sqrtQ : ℚ → ℚ) (samplenList zmlenList : List ℚ)
    (sample_area : ℚ) : Except PyErr SiteStatsRow :=
  match pyDiv zmlenList.sum samplenList.sum with
  | .error e => .error e
  | .ok estmean_zmfraction =>
    match pyDiv samplenList.sum (samplenList.length : ℚ) with
    | .error e => .error e
    | .ok mean_translen =>
      match ratioEstVar samplenList zmlenList estmean_zmfraction
          samplenList.length mean_translen with
      | .error e => .error e
      | .ok estvar_zmfraction =>
        let est_basalcov := estmean_zmfraction * sample_area
        let estvar_basalcov := estvar_zmfraction * sample_area ^ 2
        match pySqrt sqrtQ estvar_basalcov with
        | .error e => .error e
        | .ok se_basalcov =>
          match pyDiv se_basalcov est_basalcov with
          | .error e => .error e
          | .ok cv_basalcov =>
            .ok ⟨estmean_zmfraction, mean_translen, estvar_zmfraction,
                 est_basalcov, estvar_basalcov, se_basalcov, cv_basalcov⟩

/-- svmp_10x.SiteStatistics.veg_fraction: `Σveg / Σsample` with
`try/except ZeroDivisionError` yielding `0.0`. -/
def SiteStatistics_veg_fraction (sample_lengths vegetation_lengths : List ℚ) : ℚ :=
  tryZeroDiv (pyDiv vegetation_lengths.sum sample_lengths.sum)

/-- svmp_10x.SiteStatistics.mean_transect_length: `Σsample / n_area` with
`try/except ZeroDivisionError` yielding `0.0`. -/
def SiteStatistics_mean_transect_length (sample_lengths : List ℚ) : ℚ :=
  tryZeroDiv (pyDiv sample_lengths.sum (sample_lengths.length : ℚ))

/-- svmp_10x.SiteStatistics.veg_area: `veg_fraction * sample_area` (its
`try/except ZeroDivisionError` can never fire on a product). -/
def SiteStatistics_veg_area (sample_lengths vegetation_lengths : List ℚ)
    (sample_area : ℚ) : ℚ :=
  SiteStatistics_veg_fraction sample_lengths vegetation_lengths * sample_area

/-- svmp_10x.SiteStatistics.veg_mind_se / veg_maxd_se: the standard error
of a depth list when it has at least two entries, the `nullDep` sentinel
otherwise. -/
def SiteStatistics_veg_dep_se (sqrtQ : ℚ → ℚ) (deps : List ℚ) : Except PyErr ℚ :=
  if 1 < deps.length then
    match stdDev sqrtQ deps with
    | .error e => .error e
    | .ok sd => stdErr sqrtQ sd deps.length
  else .ok nullDep

/-- C8 counterexample: a zero-effort site (every transect with zero
sample length) makes sitestatsdb.calc_siteStats raise ZeroDivisionError
at the unguarded vegetation-fraction division instead of producing an
all-zero site record. -/
theorem calc_siteStats_zero_effort_cex :
    calc_siteStats_area q0 [0, 0] [0, 0] 100 = .error .zeroDiv := by
  with_unfolding_all decide

/-- C8 amended: the defined zero fallbacks exist only in
svmp_10x.SiteStatistics, whose veg_fraction, mean_transect_length and
veg_area are `0.0` for zero-effort and zero-vegetation sites (and whose
depth statistics fall back to the `nullDep` sentinel below two usable
depths); sitestatsdb.calc_siteStats instead raises ZeroDivisionError on
every zero-effort site (at the vegetation fraction) and on every
zero-vegetation site (at the coefficient of variation, or at the
ratio-estimator variance for a one-transect site). -/
theorem site_stats_zero_guards (sqrtQ : ℚ → ℚ)
    (sample_lengths vegetation_lengths : List ℚ) (sample_area : ℚ) :
    (sample_lengths.sum = 0 →
      SiteStatistics_veg_fraction sample_lengths vegetation_lengths = 0 ∧
      SiteStatistics_veg_area sample_lengths vegetation_lengths sample_area = 0) ∧
    (vegetation_lengths.sum = 0 →
      SiteStatistics_veg_fraction sample_lengths vegetation_lengths = 0 ∧
      SiteStatistics_veg_area sample_lengths vegetation_lengths sample_area = 0) ∧
    (sample_lengths.sum = 0 →
      calc_siteStats_area sqrtQ sample_lengths vegetation_lengths sample_area =
        .error .zeroDiv) ∧
    (vegetation_lengths.sum = 0 → sample_lengths.sum ≠ 0 →
      ∃ e, calc_siteStats_area sqrtQ sample_lengths vegetation_lengths sample_area =
        .error e) ∧
    (∀ deps : List ℚ, deps.length ≤ 1 →
      SiteStatistics_veg_dep_se sqrtQ deps = .ok nullDep) := by
  refine ⟨?_, ?_, ?_, ?_, ?_⟩
  · intro hs
    have : SiteStatistics_veg_fraction sample_lengths vegetation_lengths = 0 := by
      simp [SiteStatistics_veg_fraction, tryZeroDiv, pyDiv, hs]
    exact ⟨this, by simp [SiteStatistics_veg_area, this]⟩
  · intro hv
    have : SiteStatistics_veg_fraction sample_lengths vegetation_lengths = 0 := by
      by_cases hs : sample_lengths.sum = 0
      · simp [SiteStatistics_veg_fraction, tryZeroDiv, pyDiv, hs]
      · simp [SiteStatistics_veg_fraction, tryZeroDiv, pyDiv, hs, hv]
    exact ⟨this, by simp [SiteStatistics_veg_area, this]⟩
  · intro hs
    unfold calc_siteStats_area
    rw [hs]
    simp [pyDiv]
  · intro hv hs
    have hn0 : sample_lengths.length ≠ 0 := by
      intro h0
      exact hs (by rw [List.eq_nil_of_length_eq_zero h0]; rfl)
    have h1 : pyDiv vegetation_lengths.sum sample_lengths.sum = .ok 0 := by
      simp [pyDiv, hs, hv]
    have hq : ((sample_lengths.length : ℚ)) ≠ 0 := by exact_mod_cast hn0
    have h2 : pyDiv sample_lengths.sum (sample_lengths.length : ℚ) =
        .ok (sample_lengths.sum / sample_lengths.length) := by
      simp [pyDiv, hq]
    by_cases hone : sample_lengths.length = 1
    · -- one transect: the ratio-estimator denominator (m-1)·m·LBar² is zero
      refine ⟨.zeroDiv, ?_⟩
      unfold calc_siteStats_area
      rw [h1, h2]
      dsimp only []
      have : ratioEstVar sample_lengths vegetation_lengths 0
          sample_lengths.length (sample_lengths.sum / sample_lengths.length) =
          .error .zeroDiv := by
        simp [ratioEstVar, pyDiv, hone]
      rw [this]
    · -- at least two transects: everything succeeds until cv = se / 0
      have hn2 : 2 ≤ sample_lengths.length := by omega
      have hLBar : sample_lengths.sum / (sample_lengths.length : ℚ) ≠ 0 :=
        div_ne_zero hs hq
      have hden : (((sample_lengths.length : ℚ) - 1) * (sample_lengths.length : ℚ) *
          (sample_lengths.sum / (sample_lengths.length : ℚ)) ^ 2) ≠ 0 := by
        have ha : ((sample_lengths.length : ℚ) - 1) ≠ 0 := by
          have : (2 : ℚ) ≤ (sample_lengths.length : ℚ) := by exact_mod_cast hn2
          intro h0
          linarith
        exact mul_ne_zero (mul_ne_zero ha hq) (pow_ne_zero 2 hLBar)
      have hposden : (0 : ℚ) < ((sample_lengths.length : ℚ) - 1) *
          (sample_lengths.length : ℚ) *
          (sample_lengths.sum / (sample_lengths.length : ℚ)) ^ 2 := by
        have ha : (0 : ℚ) < (sample_lengths.length : ℚ) - 1 := by
          have : (2 : ℚ) ≤ (sample_lengths.length : ℚ) := by exact_mod_cast hn2
          linarith
        have hb : (0 : ℚ) < (sample_lengths.length : ℚ) := by
          have : (0 : ℚ) ≤ (sample_lengths.length : ℚ) := by positivity
          exact lt_of_le_of_ne this (Ne.symm hq)
        have hc : (0 : ℚ) < (sample_lengths.sum / (sample_lengths.length : ℚ)) ^ 2 :=
          lt_of_le_of_ne (sq_nonneg _) (Ne.symm (pow_ne_zero 2 hLBar))
        positivity
      have hnum : (0 : ℚ) ≤ ((vegetation_lengths.zip sample_lengths).map
          (fun p => (p.1 - 0 * p.2) ^ 2)).sum := by
        apply List.sum_nonneg
        intro x hx
        obtain ⟨p, _, hp⟩ := List.mem_map.mp hx
        rw [← hp]
        exact sq_nonneg _
      have h3 : ratioEstVar sample_lengths vegetation_lengths 0
          sample_lengths.length (sample_lengths.sum / sample_lengths.length) =
          .ok (((vegetation_lengths.zip sample_lengths).map
            (fun p => (p.1 - 0 * p.2) ^ 2)).sum /
            (((sample_lengths.length : ℚ) - 1) * (sample_lengths.length : ℚ) *
              (sample_lengths.sum / (sample_lengths.length : ℚ)) ^ 2)) := by
        simp only [ratioEstVar, pyDiv, if_neg hden]
      have hvar0 : (0 : ℚ) ≤ (((vegetation_lengths.zip sample_lengths).map
          (fun p => (p.1 - 0 * p.2) ^ 2)).sum /
          (((sample_lengths.length : ℚ) - 1) * (sample_lengths.length : ℚ) *
            (sample_lengths.sum / (sample_lengths.length : ℚ)) ^ 2)) *
          sample_area ^ 2 :=
        mul_nonneg (div_nonneg hnum hposden.le) (sq_nonneg _)
      refine ⟨.zeroDiv, ?_⟩
      unfold calc_siteStats_area
      rw [h1, h2]
      dsimp only []
      rw [h3]
      dsimp only []
      rw [pySqrt, if_neg (not_lt.mpr hvar0)]
      dsimp only []
      simp [pyDiv]
  · intro deps hd
    have : ¬ 1 < deps.length := by omega
    simp [SiteStatistics_veg_dep_se, this]

/-- C8 witness: the guards of the amended claim at concrete inputs — a
zero-effort site (`[0, 0]`) yields `0.0` fraction and area in svmp_10x
but ZeroDivisionError in sitestatsdb, a zero-vegetation two-transect site
(`[10, 10]`, `[0, 0]`) yields `0.0` in svmp_10x but an exception in
sitestatsdb, and a one-element depth list gets the sentinel. -/
theorem site_stats_zero_guards_witness :
    (SiteStatistics_veg_fraction [0, 0] [0, 0] = 0 ∧
     SiteStatistics_veg_area [0, 0] [0, 0] 100 = 0) ∧
    (SiteStatistics_veg_fraction [10, 10] [0, 0] = 0 ∧
     SiteStatistics_veg_area [10, 10] [0, 0] 100 = 0) ∧
    calc_siteStats_area q0 [0, 0] [0, 0] 100 = .error .zeroDiv ∧
    (∃ e, calc_siteStats_area q0 [10, 10] [0, 0] 100 = .error e) ∧
    SiteStatistics_veg_dep_se q0 [nullDep] = .ok nullDep := by
  have h1 := site_stats_zero_guards q0 [0, 0] [0, 0] 100
  have h2 := site_stats_zero_guards q0 [10, 10] [0, 0] 100
  refine ⟨h1.1 (by with_unfolding_all decide),
    h2.2.1 (by with_unfolding_all decide),
    h1.2.2.1 (by with_unfolding_all decide),
    h2.2.2.2.1 (by with_unfolding_all decide) (by with_unfolding_all decide),
    h1.2.2.2.2 [nullDep] (by decide)⟩
